import Mathlib

/-!
Verification of the tile-rendering layer of `geopyspark` (files
`geopyspark/geotrellis/render.py` and `geopyspark/geotrellis/tms.py`)
against its natural-language specification.

The Python code is shallowly embedded: every method becomes a Lean
function on an explicit state, every Python exception becomes a value of
`GeoPS.PyErr` carried in `Except`, and external collaborators (the JVM
raster engine, the network, the protobuf decoder, the user callbacks)
become explicit oracle records so that each theorem quantifies over their
behaviour.  Python-specific semantics that matter to the claims —
truthiness of `0` and `None`, and negative list indexing — are embedded
explicitly (`truthyOptInt`, `pyListGet`).
-/

set_option autoImplicit false

namespace GeoPS

/-- Python exception values observable from the embedded code. -/
inductive PyErr where
  | indexError (msg : String)
  | valueError (msg : String)
  | attributeError (msg : String)
  | nameError (msg : String)
  | runtimeError (msg : String)
  | typeError (msg : String)
  deriving Repr, DecidableEq

/-- Truthiness of a Python value that is either `None` or an `int`:
`None` and `0` are falsy, every other integer is truthy. -/
def truthyOptInt : Option Int → Bool
  | none => false
  | some z => z ≠ 0

/-- Python list subscription `l[i]`: non-negative indexes count from the
front, indexes in `[-len l, -1]` count from the back, and anything else
raises `IndexError("list index out of range")`. -/
def pyListGet {α : Type} (l : List α) (i : Int) : Except PyErr α :=
  if h : 0 ≤ i ∧ i.toNat < l.length then
    .ok (l.get ⟨i.toNat, h.2⟩)
  else if h2 : i < 0 ∧ 0 ≤ (l.length : Int) + i ∧ ((l.length : Int) + i).toNat < l.length then
    .ok (l.get ⟨((l.length : Int) + i).toNat, h2.2.2⟩)
  else
    .error (.indexError "list index out of range")

/-- Python string conversion of an `Optional[str]` (`"None"` for `None`). -/
def pyShowHost : Option String → String
  | none => "None"
  | some s => s

/-- Python string conversion of an `Optional[int]` (`"None"` for `None`). -/
def pyShowPort : Option Int → String
  | none => "None"
  | some p => toString p

/-! ## Data model of `render.py` -/

/-- A spatial key: tile column and row at a fixed zoom level. -/
structure SpatialKey where
  col : Int
  row : Int
  deriving Repr, DecidableEq

/-- Per-level key bounds, `metadata.bounds` with `minKey`/`maxKey`. -/
structure Bounds where
  minKey : SpatialKey
  maxKey : SpatialKey
  deriving Repr, DecidableEq

/-- The slice of a level's `layer_metadata` that `lookup` reads. -/
structure LayerMetadata where
  bounds : Bounds
  deriving Repr, DecidableEq

/-- One entry of `self.pngpyramid`: the JVM-side singleband PNG RDD,
abstracted as its observable `lookup(col, row)` behaviour returning the
list of encoded PNG payloads stored at that key, in source order.
Payload bytes are abstracted as `Nat` identifiers. -/
structure PngLevel where
  lookupFn : Int → Int → List Nat

/-- The fields of a constructed `PngRDD` object that `lookup` reads.
`max_zoom` is `level0.zoom_level`, which in Python may be `None`. -/
structure PngRDDState where
  max_zoom : Option Int
  pngpyramid : List PngLevel
  layer_metadata : List LayerMetadata

/-- Modelled from the spec: `RESAMPLE_METHODS` is imported from
`geopyspark.geotrellis.constants`, a module of this repository that is not
among the provided sources.  The spec describes it as a closed enumeration
of recognized resampling methods (nearest-neighbor, bilinear, etc.). -/
def RESAMPLE_METHODS : List String :=
  ["NearestNeighbor", "Bilinear", "CubicConvolution", "CubicSpline",
   "Lanczos", "Average", "Mode", "Median", "Max", "Min"]

/-- Modelled from the spec: the `NEARESTNEIGHBOR` constant, the default
resampling method, a member of `RESAMPLE_METHODS`. -/
def NEARESTNEIGHBOR : String := "NearestNeighbor"

/-- Modelled from the spec: the `ZOOM` layout-scheme constant passed to
`reproject` (the fixed target tiling scheme token). -/
def ZOOM : String := "zoom"

/-! ## `PngRDD.lookup` -/

/-- The index computation at the top of `PngRDD.lookup`:
`idx = 0 if not zoom else self.max_zoom - zoom`.  Python truthiness makes
both `zoom=None` and `zoom=0` take the first branch; in the second branch
a `max_zoom` of `None` would raise `TypeError` on subtraction. -/
def computeIdx (s : PngRDDState) (zoom : Option Int) : Except PyErr Int :=
  if truthyOptInt zoom then
    match s.max_zoom with
    | none => .error (.typeError "unsupported operand type(s) for -: NoneType and int")
    | some m => .ok (m - (zoom.getD 0))
  else
    .ok 0

/-- `PngRDD.lookup(col, row, zoom)`, instrumented: the second component
records whether the underlying JVM `pngrdd.lookup` was queried.  Mirrors
`render.py` lines 85–115: compute `idx`, subscript `self.pngpyramid` and
`self.layer_metadata`, check column bounds, check row bounds, then query
the level and return its payload list (`[bytes for bytes in result]`). -/
def PngRDD.lookupT (s : PngRDDState) (col row : Int) (zoom : Option Int) :
    Except PyErr (List Nat) × Bool :=
  match computeIdx s zoom with
  | .error e => (.error e, false)
  | .ok idx =>
    match pyListGet s.pngpyramid idx with
    | .error e => (.error e, false)
    | .ok pngrdd =>
      match pyListGet s.layer_metadata idx with
      | .error e => (.error e, false)
      | .ok metadata =>
        let bounds := metadata.bounds
        if col < bounds.minKey.col ∨ col > bounds.maxKey.col then
          (.error (.indexError "column out of bounds"), false)
        else if row < bounds.minKey.row ∨ row > bounds.maxKey.row then
          (.error (.indexError "row out of bounds"), false)
        else
          (.ok ((pngrdd.lookupFn col row).map (fun b => b)), true)

/-- `PngRDD.lookup` proper: the value returned (or exception raised). -/
def PngRDD.lookup (s : PngRDDState) (col row : Int) (zoom : Option Int) :
    Except PyErr (List Nat) :=
  (PngRDD.lookupT s col row zoom).1

/-- Specification-level description of "perform the bounds-checked lookup
against the level at sequence position `i`", with ordinary (front-counting,
non-wrapping) indexing.  Used to state which level `lookup` selects. -/
def levelLookupAt (s : PngRDDState) (i : Nat) (col row : Int) :
    Except PyErr (List Nat) :=
  match s.pngpyramid.get? i, s.layer_metadata.get? i with
  | some png, some md =>
    if col < md.bounds.minKey.col ∨ col > md.bounds.maxKey.col then
      .error (.indexError "column out of bounds")
    else if row < md.bounds.minKey.row ∨ row > md.bounds.maxKey.row then
      .error (.indexError "row out of bounds")
    else
      .ok ((png.lookupFn col row).map (fun b => b))
  | _, _ => .error (.indexError "list index out of range")

/-! ## `PngRDD.__init__` and `PngRDD.makePyramid` -/

/-- One `TiledRasterRDD` level as seen by `PngRDD.__init__`: its
`zoom_level` attribute (possibly `None`), its `layer_metadata`, and its
`srdd` JVM handle (abstracted as a `Nat`). -/
structure TiledLayer where
  zoom_level : Option Int
  layer_metadata : LayerMetadata
  srdd : Nat

/-- The external collaborators of `makePyramid`/`__init__`: the zoom level
of the reprojected layer, the raster engine's `pyramid` operation, and the
JVM `PngRDD.asSingleband` conversion of one level. -/
structure MakeEnv where
  reprojected_zoom : Option Int
  pyramidLevels : Int → Int → String → List TiledLayer
  asSingleband : Nat → String → PngLevel

/-- A unit of externally observable raster-engine work performed by
`makePyramid`: the `reproject` call and the `pyramid` call with the
arguments it received. -/
inductive WorkItem where
  | reproject (crs scheme : String)
  | pyramidCall (startZoom endZoom : Int) (method : String)
  deriving Repr, DecidableEq

/-- `PngRDD.__init__(pyramid, ramp_name, persist_mode, debug)`
(`render.py` lines 20–46).  It reads `pyramid[0]` (an `IndexError` on an
empty pyramid), computes every field of the object, and then executes the
bare call `set_persist(persist_mode)` — `set_persist` is a method of the
class, not a module-level name, so this final statement raises
`NameError` and the constructor never returns. -/
def PngRDD.init (env : MakeEnv) (pyramid : List TiledLayer)
    (ramp_name : String) (persist_mode : String) : Except PyErr PngRDDState :=
  match pyramid with
  | [] => .error (.indexError "list index out of range")
  | level0 :: _ =>
    let _constructed : PngRDDState :=
      { max_zoom := level0.zoom_level
        pngpyramid := pyramid.map (fun layer => env.asSingleband layer.srdd ramp_name)
        layer_metadata := pyramid.map (fun lev => lev.layer_metadata) }
    let _ := persist_mode
    .error (.nameError "name 'set_persist' is not defined")

/-- `PngRDD.makePyramid(tiledrdd, ramp_name, start_zoom, end_zoom,
resample_method, persist_mode)` (`render.py` lines 48–83), instrumented:
the second component is the trace of raster-engine work performed
(reprojection, pyramiding).  Mirrors the source order: validate
`resample_method` against `RESAMPLE_METHODS`, reproject to `EPSG:3857`
with the `ZOOM` scheme, resolve `start_zoom` (Python truthiness: a
supplied `0` counts as absent, and a reprojected zoom of `0` or `None`
raises `AttributeError`), pyramid, and construct the `PngRDD`. -/
def PngRDD.makePyramidT (env : MakeEnv) (ramp_name : String)
    (start_zoom : Option Int) (end_zoom : Int) (resample_method : String)
    (persist_mode : String) :
    Except PyErr PngRDDState × List WorkItem :=
  if resample_method ∉ RESAMPLE_METHODS then
    (.error (.valueError (resample_method ++ " Is not a known resample method.")), [])
  else
    let trace0 := [WorkItem.reproject "EPSG:3857" ZOOM]
    let startRes : Except PyErr Int :=
      if truthyOptInt start_zoom then
        .ok (start_zoom.getD 0)
      else
        if truthyOptInt env.reprojected_zoom then
          .ok (env.reprojected_zoom.getD 0)
        else
          .error (.attributeError
            "No initial zoom level is available; Please provide a value for start_zoom")
    match startRes with
    | .error e => (.error e, trace0)
    | .ok sz =>
      let pyramid := env.pyramidLevels sz end_zoom resample_method
      (PngRDD.init env pyramid ramp_name persist_mode,
       trace0 ++ [WorkItem.pyramidCall sz end_zoom resample_method])

/-! ## `tms.py`: the render/composite callback bridge -/

/-- A decoded multiband tile; its cell grid is abstracted as a handle. -/
structure Tile where
  cells : Nat

/-- External collaborators of `TileRender.renderEncoded`: the protobuf
tile decoder, the user-supplied `render_function`, and the PIL
`image.save` encoding step.  Each may raise (an `Except.error` carrying
the exception's rendered trace). -/
structure RenderEnv where
  multibandtile_decoder : List Nat → Except String Tile
  render_function : Nat → Except String Nat
  imageSave : Nat → Except String (List Nat)

/-- `TileRender.renderEncoded(scala_array)` (`tms.py` lines 35–54): the
whole body runs inside `try`, and on any exception the handler prints the
trace and the method falls off the end returning `None`.  The first
component is the returned value (`some bytes` or `None`), the second the
log of printed traces. -/
def TileRender.renderEncoded (env : RenderEnv) (scala_array : List Nat) :
    Option (List Nat) × List String :=
  match (do
      let tile ← env.multibandtile_decoder scala_array
      let image ← env.render_function tile.cells
      let bytes ← env.imageSave image
      pure bytes : Except String (List Nat)) with
  | .ok b => (some b, [])
  | .error e => (none, [e])

/-- Left-to-right effectful map, the semantics of the Python list
comprehension in `compositeEncoded`: the first exception aborts. -/
def exceptMapList {α β : Type} (f : α → Except String β) :
    List α → Except String (List β)
  | [] => .ok []
  | a :: as => do
    let b ← f a
    let bs ← exceptMapList f as
    pure (b :: bs)

/-- External collaborators of `TileCompositer.compositeEncoded`. -/
structure CompositeEnv where
  multibandtile_decoder : List Nat → Except String Tile
  composite_function : List Nat → Except String Nat
  imageSave : Nat → Except String (List Nat)

/-- `TileCompositer.compositeEncoded(all_scala_arrays)` (`tms.py` lines
82–101): decode every incoming array, pass the list of cell grids to the
user's `composite_function`, and encode; any exception is caught, its
trace printed, and `None` returned. -/
def TileCompositer.compositeEncoded (env : CompositeEnv)
    (all_scala_arrays : List (List Nat)) : Option (List Nat) × List String :=
  match (do
      let cells ← exceptMapList
        (fun scala_array => do
          let t ← env.multibandtile_decoder scala_array
          pure t.cells) all_scala_arrays
      let image ← env.composite_function cells
      let bytes ← env.imageSave image
      pure bytes : Except String (List Nat)) with
  | .ok b => (some b, [])
  | .error e => (none, [e])

/-! ## `tms.py`: the `TMS` server lifecycle -/

/-- The mutable Python-side state of a `TMS` object: the handshake token,
the `bound` flag, and the recorded `_host`/`_port`. -/
structure TMSState where
  handshake : String
  bound : Bool
  host : Option String
  port : Option Int
  deriving Repr, DecidableEq

/-- The state set by `TMS.__init__`. -/
def TMS.initState : TMSState :=
  { handshake := "", bound := false, host := none, port := none }

/-- External collaborators of `TMS.bind`: the JVM server's `bind` (called
with a requested port, or without one when the argument is falsy), its
`port()` accessor, and the socket-based outbound-host discovery
expression.  Each may raise. -/
structure BindEnv where
  serverBind : String → Option Int → Except Unit Unit
  serverPort : Except Unit Int
  discoverHost : Except Unit String

/-- `TMS.bind(host, requested_port)` (`tms.py` lines 140–164).  Inside
`try`: call `server.bind` (with the port only when truthy), set
`self.bound = True`, set `self._port = server.port()`, then set
`self._host` from the discovery expression.  Any exception reaches the
`except` clause, which raises `RuntimeError` whose message interpolates
the *current* `self._host`/`self._port`; the attributes updated before
the failure keep their new values. -/
def TMS.bind (env : BindEnv) (st : TMSState) (host : String)
    (requested_port : Option Int) : Except PyErr Unit × TMSState :=
  let raiseErr := fun (st2 : TMSState) =>
    (Except.error (PyErr.runtimeError
      (if truthyOptInt requested_port then
        "Error binding to " ++ pyShowHost st2.host ++ " on port " ++ pyShowPort st2.port
      else
        pyShowHost st2.host)), st2)
  match env.serverBind host (if truthyOptInt requested_port then requested_port else none) with
  | .error _ => raiseErr st
  | .ok _ =>
    let st1 := { st with bound := true }
    match env.serverPort with
    | .error _ => raiseErr st1
    | .ok p =>
      let st2 := { st1 with port := some p }
      match env.discoverHost with
      | .error _ => raiseErr st2
      | .ok h => (Except.ok (), { st2 with host := some h })

/-- `TMS.unbind()` (`tms.py` lines 166–170): asks the JVM server to
unbind and clears `_port` and `_host`.  The `bound` flag is not touched. -/
def TMS.unbind (st : TMSState) : TMSState :=
  { st with port := none, host := none }

/-- `TMS.url_pattern` (`tms.py` lines 188–198): raises `ValueError` when
`self.bound` is false, else formats the URL from `_host` and `_port`. -/
def TMS.url_pattern (st : TMSState) : Except PyErr String :=
  if !st.bound then
    .error (.valueError "Cannot generate URL for unbound TMS server")
  else
    .ok ("http://" ++ pyShowHost st.host ++ ":" ++ pyShowPort st.port ++
         "/tile/{z}/{x}/{y}.png")

/-! ## `tms.py`: `TMS.build` -/

/-- One tile-source argument to `TMS.build`: a `Pyramid` object (its
zoom-indexed `srdd` handles), a `(uri, layer-name)` string pair, or any
other value (which `makeReader` rejects). -/
inductive TileSrc where
  | pyramid (levels : List (Int × Nat))
  | catalog (uri name : String)
  | invalid
  deriving Repr, DecidableEq

/-- The `source` parameter of `TMS.build`: a bare source or a list. -/
inductive SourceArg where
  | one (s : TileSrc)
  | many (l : List TileSrc)
  deriving Repr, DecidableEq

/-- The `display` parameter of `TMS.build`: a `ColorMap` (its JVM `cmap`
handle), a callable (its handle), or any other value. -/
inductive Display where
  | colorMap (cmap : Nat)
  | callable (fn : Nat)
  | other
  deriving Repr, DecidableEq

/-- A JVM tile reader produced by `makeReader`. -/
inductive Reader where
  | spatialRddReader (levels : List (Int × Nat))
  | catalogReader (uri name : String)
  deriving Repr, DecidableEq

/-- The display argument wired into a rendering route. -/
inductive Displayer where
  | fromCM (cmap : Nat)
  | tileRender (fn : Nat)
  deriving Repr, DecidableEq

/-- A JVM route built by `TMS.build`. -/
inductive Route where
  | renderingTileRoute (reader : Reader) (displayer : Displayer)
  | compositingTileRoute (readers : List Reader) (compositer : Nat)
  deriving Repr, DecidableEq

/-- `makeReader(arg)` inside `TMS.build` (`tms.py` lines 228–238):
dispatch on the runtime type of the argument, rejecting anything that is
neither a `Pyramid` nor a `(str, str)` tuple. -/
def makeReader : TileSrc → Except PyErr Reader
  | .pyramid levels => .ok (.spatialRddReader levels)
  | .catalog uri name => .ok (.catalogReader uri name)
  | .invalid => .error (.valueError "Arguments must be of type Pyramid or (string, string)")

/-- Left-to-right reader construction for the list comprehension
`[makeReader(arg) for arg in source]`. -/
def makeReaders : List TileSrc → Except PyErr (List Reader)
  | [] => .ok []
  | a :: as => do
    let r ← makeReader a
    let rs ← makeReaders as
    pure (r :: rs)

/-- `TMS.build(source, display)` (`tms.py` lines 200–261), up to the
route construction (the final JVM `createServer` call and the `TMS`
object construction are external).  A one-element list is first unwrapped
to its sole element; then the route is chosen by the runtime type of
`display` and whether `source` is (still) a list. -/
def TMS.build (source : SourceArg) (display : Display) : Except PyErr Route :=
  let source : SourceArg :=
    match source with
    | .many [s] => .one s
    | s => s
  match display with
  | .colorMap cmap =>
    match source with
    | .many _ => .error (.valueError "May only apply color maps to a single input source")
    | .one s => do
      let reader ← makeReader s
      pure (.renderingTileRoute reader (.fromCM cmap))
  | .callable fn =>
    match source with
    | .many l => do
      let readers ← makeReaders l
      pure (.compositingTileRoute readers fn)
    | .one s => do
      let reader ← makeReader s
      pure (.renderingTileRoute reader (.tileRender fn))
  | .other => .error (.valueError "Display method must be callable or a ColorMap")

/-! ## Helper lemmas about Python list subscription -/

theorem pyListGet_pos {α : Type} (l : List α) (i : Int) (x : α) (h0 : 0 ≤ i)
    (hx : l.get? i.toNat = some x) : pyListGet l i = .ok x := by
  obtain ⟨hlt, hget⟩ := List.get?_eq_some.mp hx
  unfold pyListGet
  rw [dif_pos ⟨h0, hlt⟩, hget]

theorem pyListGet_neg {α : Type} (l : List α) (i : Int) (x : α) (hneg : i < 0)
    (h0 : 0 ≤ (l.length : Int) + i)
    (hx : l.get? ((l.length : Int) + i).toNat = some x) :
    pyListGet l i = .ok x := by
  obtain ⟨hlt, hget⟩ := List.get?_eq_some.mp hx
  unfold pyListGet
  rw [dif_neg (by omega), dif_pos ⟨hneg, h0, hlt⟩, hget]

theorem pyListGet_oob {α : Type} (l : List α) (i : Int)
    (h : (l.length : Int) ≤ i ∨ (l.length : Int) + i < 0) :
    pyListGet l i = .error (.indexError "list index out of range") := by
  unfold pyListGet
  rw [dif_neg (by omega), dif_neg (by omega)]

/-- For a non-negative computed index, `lookup` agrees with the
specification-level `levelLookupAt` at position `idx.toNat` (including
the out-of-range case, where both raise the list index error). -/
theorem lookup_eq_levelLookupAt_nonneg (s : PngRDDState)
    (hlen : s.layer_metadata.length = s.pngpyramid.length)
    (col row : Int) (zoom : Option Int) (idx : Int)
    (hidx : computeIdx s zoom = .ok idx) (h0 : 0 ≤ idx) :
    PngRDD.lookup s col row zoom = levelLookupAt s idx.toNat col row := by
  by_cases hlt : idx.toNat < s.pngpyramid.length
  · have hmd : idx.toNat < s.layer_metadata.length := by omega
    have hp := List.get?_eq_get hlt
    have hq := List.get?_eq_get hmd
    have e1 := pyListGet_pos s.pngpyramid idx _ h0 hp
    have e2 := pyListGet_pos s.layer_metadata idx _ h0 hq
    simp only [PngRDD.lookup, PngRDD.lookupT, hidx, e1, e2, levelLookupAt, hp, hq]
    split_ifs <;> rfl
  · have e1 := pyListGet_oob s.pngpyramid idx (by omega)
    have hq : s.pngpyramid.get? idx.toNat = none := List.get?_eq_none.2 (by omega)
    simp only [PngRDD.lookup, PngRDD.lookupT, hidx, e1, levelLookupAt, hq]

/-- For a negative computed index that stays within `[-len, -1]`,
`lookup` wraps around: it agrees with `levelLookupAt` at position
`len + idx` (Python negative indexing). -/
theorem lookup_eq_levelLookupAt_negWrap (s : PngRDDState)
    (hlen : s.layer_metadata.length = s.pngpyramid.length)
    (col row : Int) (zoom : Option Int) (idx : Int)
    (hidx : computeIdx s zoom = .ok idx) (hneg : idx < 0)
    (hge : 0 ≤ (s.pngpyramid.length : Int) + idx) :
    PngRDD.lookup s col row zoom =
      levelLookupAt s ((s.pngpyramid.length : Int) + idx).toNat col row := by
  have hge2 : 0 ≤ (s.layer_metadata.length : Int) + idx := by omega
  have hjlt : ((s.pngpyramid.length : Int) + idx).toNat < s.pngpyramid.length := by omega
  have hjmd : ((s.pngpyramid.length : Int) + idx).toNat < s.layer_metadata.length := by omega
  have hp := List.get?_eq_get hjlt
  have hq := List.get?_eq_get hjmd
  have harg : ((s.layer_metadata.length : Int) + idx).toNat
      = ((s.pngpyramid.length : Int) + idx).toNat := by omega
  have hq' : s.layer_metadata.get? ((s.layer_metadata.length : Int) + idx).toNat
      = some (s.layer_metadata.get ⟨((s.pngpyramid.length : Int) + idx).toNat, hjmd⟩) := by
    rw [harg]; exact hq
  have e1 := pyListGet_neg s.pngpyramid idx _ hneg hge hp
  have e2 := pyListGet_neg s.layer_metadata idx _ hneg hge2 hq'
  simp only [PngRDD.lookup, PngRDD.lookupT, hidx, e1, e2, levelLookupAt, hp, hq]
  split_ifs <;> rfl

/-- For a negative computed index below `-len`, `lookup` raises the list
index error before touching any level. -/
theorem lookup_negOut_err (s : PngRDDState) (col row : Int)
    (zoom : Option Int) (idx : Int) (hidx : computeIdx s zoom = .ok idx)
    (hlt : (s.pngpyramid.length : Int) + idx < 0) :
    PngRDD.lookup s col row zoom =
      .error (.indexError "list index out of range") := by
  have e1 := pyListGet_oob s.pngpyramid idx (Or.inr hlt)
  simp only [PngRDD.lookup, PngRDD.lookupT, hidx, e1]

/-! ## Concrete states used by counterexamples and witnesses -/

/-- A level whose every key stores the single payload `i`, so that the
selected sequence index is observable from the lookup result. -/
def mkLevel (i : Nat) : PngLevel := ⟨fun _ _ => [i]⟩

/-- Metadata with bounds `minKey = (0,0)`, `maxKey = (3,3)`. -/
def mdAll : LayerMetadata := ⟨⟨⟨0, 0⟩, ⟨3, 3⟩⟩⟩

/-- A pyramid with levels at zooms `2, 1, 0` (`max_zoom = 2`,
`end_zoom = 0`), each with bounds `(0,0)–(3,3)`. -/
def pyr3 : PngRDDState :=
  ⟨some 2, [mkLevel 0, mkLevel 1, mkLevel 2], [mdAll, mdAll, mdAll]⟩

/-! ## Claim C1 -/

/-- C1 counterexample.  `pyr3` has levels at zooms `[0, 2]` with
`max_zoom = 2`.  The claim requires (a) an index-range failure for every
zoom outside `[0, 2]`, but `lookup` at zoom `3` computes index `-1`,
wraps around per Python list semantics, and succeeds on the *last* level
(payload `[2]`); and (b) selection of sequence index `max_zoom - zoom`
whenever `zoom` is given, but an explicit `zoom = 0` is falsy in Python
and selects index `0` (payload `[0]`), not index `2`. -/
theorem c1_lookup_zoom_indexing_counterexample :
    PngRDD.lookup pyr3 1 1 (some 3) = .ok [2] ∧
    PngRDD.lookup pyr3 1 1 (some 0) = .ok [0] := by
  exact ⟨rfl, rfl⟩

/-- C1 (amended).  For a pyramid with `max_zoom = m` and equally long
level/metadata lists: an omitted zoom *or an explicit zoom of 0* selects
sequence index 0 (the finest level); a nonzero zoom `z` with
`0 ≤ m - z < len` selects sequence index `m - z`; a nonzero zoom with
`-len ≤ m - z < 0` (i.e. `m < z ≤ m + len`) wraps around to index
`len + (m - z)` instead of failing; and the index-range error is raised
exactly for the remaining zooms (`m - z ≥ len` or `m - z < -len`). -/
theorem c1_lookup_zoom_indexing (s : PngRDDState) (m : Int)
    (hm : s.max_zoom = some m)
    (hlen : s.layer_metadata.length = s.pngpyramid.length)
    (col row : Int) (z : Int) :
    (PngRDD.lookup s col row none = levelLookupAt s 0 col row) ∧
    (PngRDD.lookup s col row (some 0) = levelLookupAt s 0 col row) ∧
    (z ≠ 0 → 0 ≤ m - z →
      PngRDD.lookup s col row (some z) = levelLookupAt s (m - z).toNat col row) ∧
    (z ≠ 0 → m - z < 0 → 0 ≤ (s.pngpyramid.length : Int) + (m - z) →
      PngRDD.lookup s col row (some z) =
        levelLookupAt s ((s.pngpyramid.length : Int) + (m - z)).toNat col row) ∧
    (z ≠ 0 → (s.pngpyramid.length : Int) + (m - z) < 0 →
      PngRDD.lookup s col row (some z) =
        .error (.indexError "list index out of range")) := by
  have hnone : computeIdx s none = .ok 0 := rfl
  have hzero : computeIdx s (some 0) = .ok 0 := rfl
  refine ⟨?_, ?_, ?_, ?_, ?_⟩
  · simpa using lookup_eq_levelLookupAt_nonneg s hlen col row none 0 hnone le_rfl
  · simpa using lookup_eq_levelLookupAt_nonneg s hlen col row (some 0) 0 hzero le_rfl
  · intro hz h0
    have hidx : computeIdx s (some z) = .ok (m - z) := by
      unfold computeIdx
      rw [hm]
      simp [truthyOptInt, hz]
    exact lookup_eq_levelLookupAt_nonneg s hlen col row (some z) (m - z) hidx h0
  · intro hz hneg hge
    have hidx : computeIdx s (some z) = .ok (m - z) := by
      unfold computeIdx
      rw [hm]
      simp [truthyOptInt, hz]
    exact lookup_eq_levelLookupAt_negWrap s hlen col row (some z) (m - z) hidx hneg hge
  · intro hz hlt
    have hidx : computeIdx s (some z) = .ok (m - z) := by
      unfold computeIdx
      rw [hm]
      simp [truthyOptInt, hz]
    exact lookup_negOut_err s col row (some z) (m - z) hidx hlt

/-- C1 witness: the amended theorem applied to the concrete pyramid
`pyr3` at zoom 1, selecting sequence index `2 - 1 = 1`. -/
theorem c1_lookup_zoom_indexing_witness :
    PngRDD.lookup pyr3 1 1 (some 1) = levelLookupAt pyr3 ((2 : Int) - 1).toNat 1 1 :=
  (c1_lookup_zoom_indexing pyr3 2 rfl rfl 1 1 1).2.2.1 (by decide) (by decide)

/-! ## Claim C3 -/

/-- C3 (confirmed).  For any materialized level actually selected by
`lookup` (the level `p` with metadata `md` that the computed index
resolves to): a key inside the `[minKey, maxKey]` rectangle queries the
underlying source and returns its payload list in source order; a key
with `col` outside `[minKey.col, maxKey.col]` fails with the
column-specific range error; a key with `col` in bounds but `row`
outside `[minKey.row, maxKey.row]` fails with the distinct row-specific
range error; and in both failure cases the source-queried flag is
`false` — the underlying source is never consulted. -/
theorem c3_lookup_bounds_isolation (s : PngRDDState) (col row : Int)
    (zoom : Option Int) (idx : Int) (p : PngLevel) (md : LayerMetadata)
    (hidx : computeIdx s zoom = .ok idx)
    (hp : pyListGet s.pngpyramid idx = .ok p)
    (hmd : pyListGet s.layer_metadata idx = .ok md) :
    (md.bounds.minKey.col ≤ col → col ≤ md.bounds.maxKey.col →
     md.bounds.minKey.row ≤ row → row ≤ md.bounds.maxKey.row →
      PngRDD.lookupT s col row zoom = (.ok (p.lookupFn col row), true)) ∧
    (col < md.bounds.minKey.col ∨ col > md.bounds.maxKey.col →
      PngRDD.lookupT s col row zoom =
        (.error (.indexError "column out of bounds"), false)) ∧
    (md.bounds.minKey.col ≤ col → col ≤ md.bounds.maxKey.col →
     (row < md.bounds.minKey.row ∨ row > md.bounds.maxKey.row) →
      PngRDD.lookupT s col row zoom =
        (.error (.indexError "row out of bounds"), false)) := by
  refine ⟨?_, ?_, ?_⟩
  · intro h1 h2 h3 h4
    have hcol : ¬ (col < md.bounds.minKey.col ∨ col > md.bounds.maxKey.col) := by omega
    have hrow : ¬ (row < md.bounds.minKey.row ∨ row > md.bounds.maxKey.row) := by omega
    simp only [PngRDD.lookupT, hidx, hp, hmd, if_neg hcol, if_neg hrow,
      List.map_id']
  · intro hcol
    simp only [PngRDD.lookupT, hidx, hp, hmd, if_pos hcol]
  · intro h1 h2 hrow
    have hcol : ¬ (col < md.bounds.minKey.col ∨ col > md.bounds.maxKey.col) := by omega
    simp only [PngRDD.lookupT, hidx, hp, hmd, if_neg hcol, if_pos hrow]

/-- C3 witness: on `pyr3` with zoom omitted (level 0, bounds
`(0,0)–(3,3)`), the in-bounds key `(2,2)` succeeds with the stored
payload and the queried flag set, and the key `(4,0)` fails with the
column error without querying the source. -/
theorem c3_lookup_bounds_isolation_witness :
    PngRDD.lookupT pyr3 2 2 none = (.ok [0], true) ∧
    PngRDD.lookupT pyr3 4 0 none =
      (.error (.indexError "column out of bounds"), false) := by
  constructor
  · exact (c3_lookup_bounds_isolation pyr3 2 2 none 0 (mkLevel 0) mdAll rfl rfl rfl).1
      (by decide) (by decide) (by decide) (by decide)
  · exact (c3_lookup_bounds_isolation pyr3 4 0 none 0 (mkLevel 0) mdAll rfl rfl rfl).2.1
      (by decide)

/-! ## Claims C2, C8, C9: `makePyramid` -/

/-- A concrete environment: the reprojected layer reports zoom 5, and
`pyramid(start, end, method)` returns two levels tagged with the start
and end zooms it received, so the arguments are observable. -/
def envZ5 : MakeEnv :=
  { reprojected_zoom := some 5
    pyramidLevels := fun sz ez _ => [⟨some sz, mdAll, sz.toNat⟩, ⟨some ez, mdAll, ez.toNat⟩]
    asSingleband := fun n _ => mkLevel n }

/-- C2 (code bug).  `PngRDD.makePyramid` can never return a constructed
`PngRDD`: for every environment and every argument list, the result is an
exception.  The constructor `__init__` ends with the statement
`set_persist(persist_mode)` (`render.py` line 46), a bare reference to a
name that exists only as a method of the class, so every construction
that gets past the earlier checks dies with `NameError` — contradicting
the method's own docstring ("Returns: A PngRDD object"). -/
theorem c2_makePyramid_never_returns (env : MakeEnv) (ramp : String)
    (start_zoom : Option Int) (end_zoom : Int) (resample_method : String)
    (persist_mode : String) (st : PngRDDState) :
    (PngRDD.makePyramidT env ramp start_zoom end_zoom resample_method
      persist_mode).1 ≠ .ok st := by
  unfold PngRDD.makePyramidT PngRDD.init
  repeat' split
  all_goals simp
  all_goals (split <;> simp)

/-- C8 (confirmed).  An unrecognized resampling method fails with the
configuration (`ValueError`) exception and the work trace is empty: no
reprojection and no pyramiding is performed. -/
theorem c8_bad_resample_fails_before_work (env : MakeEnv) (ramp : String)
    (start_zoom : Option Int) (end_zoom : Int) (persist_mode : String)
    (rm : String) (hrm : rm ∉ RESAMPLE_METHODS) :
    PngRDD.makePyramidT env ramp start_zoom end_zoom rm persist_mode =
      (.error (.valueError (rm ++ " Is not a known resample method.")), []) := by
  unfold PngRDD.makePyramidT
  rw [if_pos hrm]

/-- C8 witness: the unknown method `"bogus"` is rejected with no work. -/
theorem c8_bad_resample_fails_before_work_witness :
    PngRDD.makePyramidT envZ5 "hot" none 0 "bogus" "NONE" =
      (.error (.valueError ("bogus" ++ " Is not a known resample method.")), []) :=
  c8_bad_resample_fails_before_work envZ5 "hot" none 0 "NONE" "bogus" (by decide)

/-- C9 counterexample.  With `envZ5` (reprojected zoom 5), an explicitly
supplied `start_zoom = 0` is *not* used as the pyramid's top level: the
`pyramid` call receives start zoom 5 (Python's `if not start_zoom` treats
a supplied `0` as absent), refuting the claim that every explicitly
supplied integer, including 0, is used. -/
theorem c9_start_zoom_counterexample :
    (PngRDD.makePyramidT envZ5 "hot" (some 0) 0 "NearestNeighbor" "NONE").2 =
      [.reproject "EPSG:3857" "zoom", .pyramidCall 5 0 "NearestNeighbor"] := rfl

/-- C9 (amended).  For a recognized resampling method: a supplied
*nonzero* `start_zoom` is passed to the `pyramid` call as the top level;
a supplied `start_zoom` of 0 behaves exactly like an omitted one; an
omitted `start_zoom` defaults to the reprojected layer's zoom level when
that level is present and nonzero; and when it is absent or zero the
construction fails with the `AttributeError` asking for a `start_zoom`,
after the reprojection but before any pyramiding. -/
theorem c9_start_zoom_resolution (env : MakeEnv) (ramp : String)
    (end_zoom : Int) (persist_mode : String) (rm : String)
    (hrm : rm ∈ RESAMPLE_METHODS) :
    (∀ sz : Int, sz ≠ 0 →
      (PngRDD.makePyramidT env ramp (some sz) end_zoom rm persist_mode).2 =
        [.reproject "EPSG:3857" ZOOM, .pyramidCall sz end_zoom rm]) ∧
    (PngRDD.makePyramidT env ramp (some 0) end_zoom rm persist_mode =
      PngRDD.makePyramidT env ramp none end_zoom rm persist_mode) ∧
    (∀ m : Int, env.reprojected_zoom = some m → m ≠ 0 →
      (PngRDD.makePyramidT env ramp none end_zoom rm persist_mode).2 =
        [.reproject "EPSG:3857" ZOOM, .pyramidCall m end_zoom rm]) ∧
    (env.reprojected_zoom = none ∨ env.reprojected_zoom = some 0 →
      PngRDD.makePyramidT env ramp none end_zoom rm persist_mode =
        (.error (.attributeError
          "No initial zoom level is available; Please provide a value for start_zoom"),
         [.reproject "EPSG:3857" ZOOM])) := by
  refine ⟨?_, ?_, ?_, ?_⟩
  · intro sz hsz
    unfold PngRDD.makePyramidT
    rw [if_neg (not_not_intro hrm)]
    simp [truthyOptInt, hsz]
  · unfold PngRDD.makePyramidT
    rw [if_neg (not_not_intro hrm), if_neg (not_not_intro hrm)]
    rfl
  · intro m hm hm0
    unfold PngRDD.makePyramidT
    rw [if_neg (not_not_intro hrm)]
    simp [truthyOptInt, hm, hm0]
  · intro hnz
    unfold PngRDD.makePyramidT
    rw [if_neg (not_not_intro hrm)]
    rcases hnz with h | h <;> simp [truthyOptInt, h]

/-- C9 witness: with reprojected zoom 5, the omitted `start_zoom`
defaults to 5 in the `pyramid` call. -/
theorem c9_start_zoom_resolution_witness :
    (PngRDD.makePyramidT envZ5 "hot" none 0 "NearestNeighbor" "NONE").2 =
      [.reproject "EPSG:3857" ZOOM, .pyramidCall 5 0 "NearestNeighbor"] :=
  (c9_start_zoom_resolution envZ5 "hot" 0 "NONE" "NearestNeighbor"
    (by decide)).2.2.1 5 rfl (by decide)

/-! ## Claim C4: `url_pattern` and the bind/unbind lifecycle -/

/-- An environment where every external step of `bind` succeeds. -/
def c4Env : BindEnv :=
  { serverBind := fun _ _ => .ok ()
    serverPort := .ok 8000
    discoverHost := .ok "10.0.0.5" }

/-- C4 (code-bug evaluation).  Initially (`Unbound`) `url_pattern`
raises the state error, and while `Bound` it returns the URL with the
literal `{z}`, `{x}`, `{y}` tokens — those parts of the claim hold.  But
after a successful `bind` followed by `unbind`, the server is `Unbound`
again (`host = None`, `port = None`), yet `url_pattern` does *not* raise:
`unbind` (`tms.py` 166–170) clears `_host` and `_port` without resetting
`self.bound`, so `url_pattern` happily returns
`"http://None:None/tile/{z}/{x}/{y}.png"`, contradicting both the claim
and the class's own documentation of `host`/`port` ("if bound, else
None"). -/
theorem c4_url_pattern_unbind_eval :
    TMS.url_pattern TMS.initState =
      .error (.valueError "Cannot generate URL for unbound TMS server") ∧
    (TMS.bind c4Env TMS.initState "0.0.0.0" (some 8000)).1 = .ok () ∧
    TMS.url_pattern (TMS.bind c4Env TMS.initState "0.0.0.0" (some 8000)).2 =
      .ok "http://10.0.0.5:8000/tile/{z}/{x}/{y}.png" ∧
    (TMS.unbind (TMS.bind c4Env TMS.initState "0.0.0.0" (some 8000)).2).host = none ∧
    (TMS.unbind (TMS.bind c4Env TMS.initState "0.0.0.0" (some 8000)).2).port = none ∧
    TMS.url_pattern (TMS.unbind (TMS.bind c4Env TMS.initState "0.0.0.0" (some 8000)).2) =
      .ok "http://None:None/tile/{z}/{x}/{y}.png" := by
  refine ⟨rfl, rfl, ?_, rfl, rfl, rfl⟩
  rfl

/-! ## Claim C5: failure behaviour of `bind` -/

/-- An environment where the JVM bind and port query succeed but the
socket-based host discovery raises. -/
def c5Env : BindEnv :=
  { serverBind := fun _ _ => .ok ()
    serverPort := .ok 8005
    discoverHost := .error () }

/-- C5 counterexample.  When host discovery fails *after* the JVM server
bind succeeded, `bind` does raise the binding `RuntimeError` — but the
state is not left unchanged: `self.bound` was already set to `True` and
`self._port` to the acquired port, refuting "the bound flag stays False
and host and port stay None" for every failure. -/
theorem c5_bind_partial_state_counterexample :
    (TMS.bind c5Env TMS.initState "localhost" (some 8005)).1 =
      .error (.runtimeError "Error binding to None on port 8005") ∧
    (TMS.bind c5Env TMS.initState "localhost" (some 8005)).2.bound = true ∧
    (TMS.bind c5Env TMS.initState "localhost" (some 8005)).2.port = some 8005 := by
  refine ⟨?_, rfl, rfl⟩
  rfl

/-- C5 (amended).  `bind` raises a `RuntimeError` on every failure, but
the state outcome depends on where the failure happens: if the JVM
`server.bind` call itself fails, the state is completely unchanged
(bound still `False`, host and port still as before); if `server.port()`
fails, the bound flag has already been set; if host discovery fails, the
bound flag and the port have both been updated. -/
theorem c5_bind_failure_states (env : BindEnv) (st : TMSState)
    (host : String) (rp : Option Int) :
    (env.serverBind host (if truthyOptInt rp then rp else none) = .error () →
      TMS.bind env st host rp =
        (.error (.runtimeError
          (if truthyOptInt rp then
            "Error binding to " ++ pyShowHost st.host ++ " on port " ++ pyShowPort st.port
          else pyShowHost st.host)), st)) ∧
    (env.serverBind host (if truthyOptInt rp then rp else none) = .ok () →
     env.serverPort = .error () →
      TMS.bind env st host rp =
        (.error (.runtimeError
          (if truthyOptInt rp then
            "Error binding to " ++ pyShowHost st.host ++ " on port " ++ pyShowPort st.port
          else pyShowHost st.host)), { st with bound := true })) ∧
    (∀ p : Int, env.serverBind host (if truthyOptInt rp then rp else none) = .ok () →
     env.serverPort = .ok p → env.discoverHost = .error () →
      TMS.bind env st host rp =
        (.error (.runtimeError
          (if truthyOptInt rp then
            "Error binding to " ++ pyShowHost st.host ++ " on port " ++ pyShowPort (some p)
          else pyShowHost st.host)), { st with bound := true, port := some p })) := by
  refine ⟨?_, ?_, ?_⟩
  · intro hb
    unfold TMS.bind
    rw [hb]
  · intro hb hp
    unfold TMS.bind
    rw [hb, hp]
  · intro p hb hp hd
    unfold TMS.bind
    rw [hb, hp, hd]

/-- An environment whose JVM `server.bind` call itself fails. -/
def c5FailEnv : BindEnv :=
  { serverBind := fun _ _ => .error ()
    serverPort := .ok 0
    discoverHost := .ok "h" }

/-- C5 witness: a failing JVM bind leaves the fresh state untouched. -/
theorem c5_bind_failure_states_witness :
    TMS.bind c5FailEnv TMS.initState "0.0.0.0" (some 9000) =
      (.error (.runtimeError
        (if truthyOptInt (some 9000) then
          "Error binding to " ++ pyShowHost TMS.initState.host ++ " on port " ++
            pyShowPort TMS.initState.port
        else pyShowHost TMS.initState.host)), TMS.initState) :=
  (c5_bind_failure_states c5FailEnv TMS.initState "0.0.0.0" (some 9000)).1 rfl

/-! ## Claims C6 and C10: `TMS.build` -/

/-- C6 (confirmed).  With a `ColorMap` display, `build` fails at
construction time with the configuration `ValueError` whenever more than
one tile source is supplied, and for exactly one (valid) source — bare or
as a one-element list — it builds the single-source colormap rendering
route. -/
theorem c6_colormap_multi_source_rejected (cmap : Nat) :
    (∀ l : List TileSrc, 1 < l.length →
      TMS.build (.many l) (.colorMap cmap) =
        .error (.valueError "May only apply color maps to a single input source")) ∧
    (∀ (s : TileSrc) (r : Reader), makeReader s = .ok r →
      TMS.build (.one s) (.colorMap cmap) =
        .ok (.renderingTileRoute r (.fromCM cmap))) ∧
    (∀ (s : TileSrc) (r : Reader), makeReader s = .ok r →
      TMS.build (.many [s]) (.colorMap cmap) =
        .ok (.renderingTileRoute r (.fromCM cmap))) := by
  refine ⟨?_, ?_, ?_⟩
  · intro l hl
    match l, hl with
    | a :: b :: t, _ => rfl
  · intro s r hr
    have hdef : TMS.build (.one s) (.colorMap cmap) =
        (do
          let reader ← makeReader s
          pure (Route.renderingTileRoute reader (Displayer.fromCM cmap))) := rfl
    rw [hdef, hr]
    rfl
  · intro s r hr
    have hdef : TMS.build (.many [s]) (.colorMap cmap) =
        (do
          let reader ← makeReader s
          pure (Route.renderingTileRoute reader (Displayer.fromCM cmap))) := rfl
    rw [hdef, hr]
    rfl

/-- C6 witness: two catalog sources are rejected; one pyramid source
builds the colormap route. -/
theorem c6_colormap_multi_source_rejected_witness :
    TMS.build (.many [.catalog "a" "b", .catalog "c" "d"]) (.colorMap 3) =
      .error (.valueError "May only apply color maps to a single input source") ∧
    TMS.build (.one (.pyramid [(0, 7)])) (.colorMap 3) =
      .ok (.renderingTileRoute (.spatialRddReader [(0, 7)]) (.fromCM 3)) :=
  ⟨(c6_colormap_multi_source_rejected 3).1 _ (by decide),
   (c6_colormap_multi_source_rejected 3).2.1 _ _ rfl⟩

/-- C10 (confirmed).  `build` first replaces a one-element source list by
its sole element, so `build([s], display)` and `build(s, display)` agree
for every source and every display method; in particular a `ColorMap`
with a one-element list is accepted and yields the single-source
colormap route. -/
theorem c10_build_singleton_unwrap :
    (∀ (s : TileSrc) (d : Display),
      TMS.build (.many [s]) d = TMS.build (.one s) d) ∧
    (∀ (s : TileSrc) (c : Nat) (r : Reader), makeReader s = .ok r →
      TMS.build (.many [s]) (.colorMap c) =
        .ok (.renderingTileRoute r (.fromCM c))) := by
  constructor
  · intro s d
    rfl
  · intro s c r hr
    have hdef : TMS.build (.many [s]) (.colorMap c) =
        (do
          let reader ← makeReader s
          pure (Route.renderingTileRoute reader (Displayer.fromCM c))) := rfl
    rw [hdef, hr]
    rfl

/-- C10 witness: a one-element list with a `ColorMap` display builds the
single-source colormap route. -/
theorem c10_build_singleton_unwrap_witness :
    TMS.build (.many [.catalog "u" "n"]) (.colorMap 7) =
      .ok (.renderingTileRoute (.catalogReader "u" "n") (.fromCM 7)) :=
  c10_build_singleton_unwrap.2 (.catalog "u" "n") 7 (.catalogReader "u" "n") rfl

/-! ## Claim C7: exception containment in the callback bridge -/

theorem bind_ok_eq {ε α β : Type} (a : α) (f : α → Except ε β) :
    (Except.ok a : Except ε α) >>= f = f a := rfl

theorem bind_error_eq {ε α β : Type} (e : ε) (f : α → Except ε β) :
    (Except.error e : Except ε α) >>= f = Except.error e := rfl

/-- C7 (confirmed).  Wherever the pipeline inside `renderEncoded` or
`compositeEncoded` raises — tile decoding, the user callback, or image
encoding — the exception is caught, its trace is logged, and the call
returns the no-image result `None`; the exception never escapes the
method, and when no step raises the encoded image is returned with
nothing logged. -/
theorem c7_callback_exceptions_contained (renv : RenderEnv)
    (cenv : CompositeEnv) (arr : List Nat) (arrays : List (List Nat)) :
    (∀ e, renv.multibandtile_decoder arr = .error e →
      TileRender.renderEncoded renv arr = (none, [e])) ∧
    (∀ t e, renv.multibandtile_decoder arr = .ok t →
      renv.render_function t.cells = .error e →
      TileRender.renderEncoded renv arr = (none, [e])) ∧
    (∀ t i e, renv.multibandtile_decoder arr = .ok t →
      renv.render_function t.cells = .ok i → renv.imageSave i = .error e →
      TileRender.renderEncoded renv arr = (none, [e])) ∧
    (∀ t i b, renv.multibandtile_decoder arr = .ok t →
      renv.render_function t.cells = .ok i → renv.imageSave i = .ok b →
      TileRender.renderEncoded renv arr = (some b, [])) ∧
    (∀ e, exceptMapList (fun a => do
        let t ← cenv.multibandtile_decoder a
        pure t.cells) arrays = .error e →
      TileCompositer.compositeEncoded cenv arrays = (none, [e])) ∧
    (∀ cs e, exceptMapList (fun a => do
        let t ← cenv.multibandtile_decoder a
        pure t.cells) arrays = .ok cs →
      cenv.composite_function cs = .error e →
      TileCompositer.compositeEncoded cenv arrays = (none, [e])) ∧
    (∀ cs i e, exceptMapList (fun a => do
        let t ← cenv.multibandtile_decoder a
        pure t.cells) arrays = .ok cs →
      cenv.composite_function cs = .ok i → cenv.imageSave i = .error e →
      TileCompositer.compositeEncoded cenv arrays = (none, [e])) ∧
    (∀ cs i b, exceptMapList (fun a => do
        let t ← cenv.multibandtile_decoder a
        pure t.cells) arrays = .ok cs →
      cenv.composite_function cs = .ok i → cenv.imageSave i = .ok b →
      TileCompositer.compositeEncoded cenv arrays = (some b, [])) := by
  refine ⟨?_, ?_, ?_, ?_, ?_, ?_, ?_, ?_⟩
  · intro e h1
    unfold TileRender.renderEncoded
    simp only [h1, bind_error_eq]
  · intro t e h1 h2
    unfold TileRender.renderEncoded
    simp only [h1, h2, bind_ok_eq, bind_error_eq]
  · intro t i e h1 h2 h3
    unfold TileRender.renderEncoded
    simp only [h1, h2, h3, bind_ok_eq, bind_error_eq]
  · intro t i b h1 h2 h3
    unfold TileRender.renderEncoded
    simp only [h1, h2, h3, bind_ok_eq]
    rfl
  · intro e h1
    unfold TileCompositer.compositeEncoded
    simp only [h1, bind_error_eq]
  · intro cs e h1 h2
    unfold TileCompositer.compositeEncoded
    simp only [h1, h2, bind_ok_eq, bind_error_eq]
  · intro cs i e h1 h2 h3
    unfold TileCompositer.compositeEncoded
    simp only [h1, h2, h3, bind_ok_eq, bind_error_eq]
  · intro cs i b h1 h2 h3
    unfold TileCompositer.compositeEncoded
    simp only [h1, h2, h3, bind_ok_eq]
    rfl

/-- A render environment whose user callback always raises, and a
composite environment where every step succeeds. -/
def c7RenderEnv : RenderEnv :=
  { multibandtile_decoder := fun _ => .ok ⟨0⟩
    render_function := fun _ => .error "ZeroDivisionError"
    imageSave := fun i => .ok [i] }

/-- Composite environment where every step succeeds. -/
def c7CompositeEnv : CompositeEnv :=
  { multibandtile_decoder := fun a => .ok ⟨a.length⟩
    composite_function := fun cs => .ok cs.length
    imageSave := fun i => .ok [i] }

/-- C7 witness: a raising render callback yields `(None, [trace])`, and a
fully successful composite pipeline yields the image with no log. -/
theorem c7_callback_exceptions_contained_witness :
    TileRender.renderEncoded c7RenderEnv [1, 2] = (none, ["ZeroDivisionError"]) ∧
    TileCompositer.compositeEncoded c7CompositeEnv [[1], [2, 3]] = (some [2], []) :=
  ⟨(c7_callback_exceptions_contained c7RenderEnv c7CompositeEnv [1, 2] [[1], [2, 3]]).2.1
      ⟨0⟩ "ZeroDivisionError" rfl rfl,
   (c7_callback_exceptions_contained c7RenderEnv c7CompositeEnv [1, 2] [[1], [2, 3]]).2.2.2.2.2.2.2
      [1, 2] 2 [2] rfl rfl rfl⟩

end GeoPS
